import Mathlib

/-
Verification of the NeuroML2-to-MOOSE translator (moose/neuroml2/reader.py).

The definitions below are a shallow embedding of the translator's data model
and operations.  Python floats are modelled as real numbers; gate tables
(numpy arrays with pointwise arithmetic) are modelled as lists of rationals
with pointwise operations; Python dicts are modelled as association lists
with insertion-order semantics (updates replace in place, fresh keys append
at the end); raised exceptions are modelled with `Except`.
-/

/-- A NeuroML point: x, y, z coordinates and a diameter (schema units). -/
structure NPoint where
  x : ℝ
  y : ℝ
  z : ℝ
  diameter : ℝ

/-- A MOOSE compartment's settable physical fields, as used by the reader. -/
structure MComp where
  length : ℝ
  diameter : ℝ
  Ra : ℝ
  Rm : ℝ
  Cm : ℝ
  Em : ℝ
  initVm : ℝ

/-- Surface area of a compartment (reader.py `sarea`, lines 95-113):
`length * diameter * pi` for positive length, else `diameter * diameter * pi`. -/
noncomputable def sarea (comp : MComp) : ℝ :=
  if comp.length > 0 then comp.length * comp.diameter * Real.pi
  else comp.diameter * comp.diameter * Real.pi

/-- Cross sectional area (reader.py `xarea`, lines 115-119). -/
noncomputable def xarea (comp : MComp) : ℝ :=
  comp.diameter * comp.diameter * Real.pi / 4

/-- reader.py `setRa` (lines 121-126). -/
noncomputable def setRa (comp : MComp) (resistivity : ℝ) : MComp :=
  if comp.length > 0 then { comp with Ra := resistivity * comp.length / xarea comp }
  else { comp with Ra := resistivity * 8 / (comp.diameter * Real.pi) }

/-- reader.py `setRm` (lines 128-130): membrane resistance from a conductance
density. -/
noncomputable def setRm (comp : MComp) (condDensity : ℝ) : MComp :=
  { comp with Rm := 1 / (condDensity * sarea comp) }

/-- reader.py `setEk` (lines 132-134): sets the compartment's Em. -/
def setEk (comp : MComp) (erev : ℝ) : MComp :=
  { comp with Em := erev }

/-- Length assigned to a compartment in `NML2Reader.createMorphology`
(lines 318-323): the coordinates of the proximal point `p0` and distal point
`p1` are each scaled by `lunit` and the length is
`sqrt((x-x0)^2 + (y-y0)^2 + (z-z0)^2)`. -/
noncomputable def compLength (lunit : ℝ) (p0 p1 : NPoint) : ℝ :=
  Real.sqrt ((p1.x * lunit - p0.x * lunit) ^ 2 + (p1.y * lunit - p0.y * lunit) ^ 2
    + (p1.z * lunit - p0.z * lunit) ^ 2)

/-- Diameter assigned to a compartment in `NML2Reader.createMorphology`
(line 327): `(p0.diameter + p1.diameter) * lunit / 2`. -/
noncomputable def compDiameter (lunit : ℝ) (p0 p1 : NPoint) : ℝ :=
  (p0.diameter + p1.diameter) * lunit / 2

/-- Spec-side notion for C5: a point with all of its coordinates and its
diameter scaled by the length-unit factor. -/
noncomputable def scalePoint (lunit : ℝ) (p : NPoint) : NPoint :=
  ⟨p.x * lunit, p.y * lunit, p.z * lunit, p.diameter * lunit⟩

/-- Spec-side notion for C5: Euclidean distance between two points. -/
noncomputable def euclideanDist (a b : NPoint) : ℝ :=
  Real.sqrt ((b.x - a.x) ^ 2 + (b.y - a.y) ^ 2 + (b.z - a.z) ^ 2)

/-- The shell-volume divisor used when a pool prototype is copied into a
compartment (`NML2Reader.copySpecies`, line 411):
`pi * length * (0.5 * diameter + thickness) * (0.5 * diameter - thickness)`. -/
noncomputable def shellVolume (length diameter thickness : ℝ) : ℝ :=
  Real.pi * length * (0.5 * diameter + thickness) * (0.5 * diameter - thickness)

/-- The rescaling of the pool's baseline constant B on clone
(`NML2Reader.copySpecies`, line 411): `pool.B = pool.B / shellVolume`.
The source applies this division unconditionally: there is no check that the
shell volume is positive. -/
noncomputable def rescaleB (B length diameter thickness : ℝ) : ℝ :=
  B / shellVolume length diameter thickness

/-- A NeuroML segment: identifier, optional name, optional parent-segment
reference (`segment.parent.segments`; `none` models a `parent` attribute that
is `None`), optional proximal point and a distal point. -/
structure NSegment where
  id : ℕ
  name : Option String
  parent : Option ℕ
  proximal : Option NPoint
  distal : NPoint

/-- A NeuroML segment group: identifier, directly listed member segment
references (`m.segments`) and included group references
(`inc.segment_groups`). -/
structure NSegmentGroup where
  id : String
  members : List ℕ
  includes : List String

/-- Errors raised while building a cell's morphology. -/
inductive MorphErr
  | keyError (key : String)
  | segKeyError (segId : ℕ)
  | missingGeometry (segId : ℕ)
deriving DecidableEq

/-- The `id_to_segment` dict built in `NML2Reader.createMorphology`
(line 281).  A dict maps each key to the last value inserted for it, hence
the lookup over the reversed list. -/
def idToSegment (segments : List NSegment) (i : ℕ) : Option NSegment :=
  segments.reverse.find? (fun s => s.id == i)

/-- The `sg_to_segments` dict: group identifier to list of segments.  The
association list keeps dict insertion order (updates replace in place, new
keys are appended). -/
abbrev SgMap := List (String × List NSegment)

/-- Dict read. -/
def sgGet (m : SgMap) (k : String) : Option (List NSegment) :=
  (m.find? (fun p => p.1 == k)).map (fun p => p.2)

/-- Dict write: replaces the binding in place if the key is present,
otherwise appends it, matching Python dict insertion-order semantics. -/
def sgSet (m : SgMap) (k : String) (v : List NSegment) : SgMap :=
  if m.any (fun p => p.1 == k) then
    m.map (fun p => if p.1 == k then (k, v) else p)
  else m ++ [(k, v)]

/-- Resolution of a group's member references through `id_to_segment`
(line 333); a dangling reference is a KeyError. -/
def resolveMembers (segments : List NSegment) (ids : List ℕ) :
    Except MorphErr (List NSegment) :=
  ids.mapM (fun i =>
    match idToSegment segments i with
    | some s => Except.ok s
    | none => Except.error (MorphErr.segKeyError i))

/-- First pass of `NML2Reader.createMorphology` over segment groups
(lines 332-333): map each group id to its directly listed members. -/
def sgPassOne (segments : List NSegment) (groups : List NSegmentGroup) :
    Except MorphErr SgMap :=
  groups.foldlM (fun m sg => do
    let ms ← resolveMembers segments sg.members
    return sgSet m sg.id ms) []

/-- One step of the second pass (lines 334-339): ensure the group has an
entry, then append, for each included group, that group's current list. -/
def sgAddIncludes (m : SgMap) (sg : NSegmentGroup) : Except MorphErr SgMap := do
  let m := if (sgGet m sg.id).isSome then m else sgSet m sg.id []
  sg.includes.foldlM (fun m incId =>
    match sgGet m incId with
    | none => Except.error (MorphErr.keyError incId)
    | some csegs =>
      match sgGet m sg.id with
      | none => Except.error (MorphErr.keyError sg.id)
      | some cur => Except.ok (sgSet m sg.id (cur ++ csegs))) m

/-- The full group-expansion of `NML2Reader.createMorphology`
(lines 331-342): first pass, second pass, then synthesis of the reserved
group "all" as the full segment list when it was not defined. -/
def buildSgToSegments (segments : List NSegment) (groups : List NSegmentGroup) :
    Except MorphErr SgMap := do
  let m ← sgPassOne segments groups
  let m ← groups.foldlM sgAddIncludes m
  return if (sgGet m "all").isSome then m else sgSet m "all" segments

/-- The deduplication loop of `getSegments` (reader.py lines 148-154): keep
the first occurrence of each segment id, in order.  The source accumulates
the seen ids in a list and only tests membership, so consing instead of
appending to the seen list is equivalent. -/
def dedupAux : List NSegment → List ℕ → List NSegment
  | [], _ => []
  | s :: rest, seen =>
    if s.id ∈ seen then dedupAux rest seen
    else s :: dedupAux rest (s.id :: seen)

/-- reader.py `getSegments` deduplication, starting from no seen ids. -/
def dedupSegs (segments : List NSegment) : List NSegment :=
  dedupAux segments []

/-- reader.py `getSegments` (lines 137-154): select the segments a component
applies to (no selector: every segment of the morphology; the sentinel
"all": the concatenation of all the dict's value lists; otherwise the
group's entry, a KeyError if absent), then deduplicate by segment id. -/
def getSegments (allSegments : List NSegment) (m : SgMap) (sg : Option String) :
    Except MorphErr (List NSegment) :=
  match sg with
  | none => Except.ok (dedupSegs allSegments)
  | some g =>
    if g == "all" then
      Except.ok (dedupSegs (m.foldl (fun acc p => acc ++ p.2) []))
    else
      match sgGet m g with
      | some l => Except.ok (dedupSegs l)
      | none => Except.error (MorphErr.keyError g)

/-- Parent resolution in `NML2Reader.createMorphology` (lines 306-309):
`segment.parent.segments` raises AttributeError when `parent` is `None`
(caught, giving no parent); a dangling parent id is an uncaught KeyError. -/
def resolveParent (segments : List NSegment) (seg : NSegment) :
    Except MorphErr (Option NSegment) :=
  match seg.parent with
  | none => Except.ok none
  | some pid =>
    match idToSegment segments pid with
    | some p => Except.ok (some p)
    | none => Except.error (MorphErr.segKeyError pid)

/-- Proximal-point resolution in `NML2Reader.createMorphology`
(lines 312-317): use the explicit proximal point if given, else the parent's
distal point, else raise (`MissingGeometryError`). -/
def resolveProximal (segments : List NSegment) (seg : NSegment) :
    Except MorphErr NPoint :=
  match resolveParent segments seg with
  | Except.error e => Except.error e
  | Except.ok parent =>
    match seg.proximal with
    | some p0 => Except.ok p0
    | none =>
      match parent with
      | some p => Except.ok p.distal
      | none => Except.error (MorphErr.missingGeometry seg.id)

/-- Opaque handle for a schema rate-function object; `calculateRateFn` is
passed in abstractly as a function on these handles. -/
abbrev RateDef := ℕ

/-- A sampled gate table; numpy arrays with pointwise arithmetic are
modelled as lists of rationals with pointwise operations. -/
abbrev Tbl := List ℚ

/-- Pointwise scaling of a table by the Q10 factor. -/
def tblScale (q : ℚ) (t : Tbl) : Tbl := t.map (fun x => q * x)

/-- Pointwise addition of two tables. -/
def tblAdd (a b : Tbl) : Tbl := List.zipWith (fun x y => x + y) a b

/-- Pointwise division of two tables. -/
def tblDiv (a b : Tbl) : Tbl := List.zipWith (fun x y => x / y) a b

/-- Pointwise reciprocal of a table (`1 / tau`). -/
def tblInv (t : Tbl) : Tbl := t.map (fun x => 1 / x)

/-- A NeuroML gate as consumed by `NML2Reader.createHHChannel`: the four
optional rate-function fields.  (The gate's `instances` exponent and the
Q10 settings are handled separately and do not affect table dataflow.) -/
structure NGate where
  id : ℕ
  forward_rate : Option RateDef
  reverse_rate : Option RateDef
  time_course : Option RateDef
  steady_state : Option RateDef
deriving DecidableEq

/-- The pair of tables assigned to a MOOSE gate; `none` when the
corresponding branch never assigned the table. -/
structure GateTables where
  tableA : Option Tbl
  tableB : Option Tbl
deriving DecidableEq

/-- The function-local variables `alpha` and `beta` of
`NML2Reader.createHHChannel`.  They are bound by the forward/reverse-rate
branch and, being locals of the enclosing function rather than of the loop
body, persist across iterations of the per-gate loop. -/
structure RateLocals where
  alpha : Option Tbl
  beta : Option Tbl
deriving DecidableEq

/-- Failure of `createHHChannel`'s gate-table construction: reading a local
variable that was never bound (Python UnboundLocalError). -/
inductive HHErr
  | unboundLocal (name : String)
deriving DecidableEq

/-- The table-construction body of the per-gate loop in
`NML2Reader.createHHChannel` (lines 591-612).
First branch (lines 591-595): both rates given binds `alpha`, `beta` and
sets tableA = q10 * alpha, tableB = q10 * (alpha + beta).
Second branch (lines 597-604): time course and steady state given sets
tableA = q10 * (inf / tau), tableB = q10 * (1 / tau).
Third branch (lines 606-612): steady state given with no time course reads
the current `alpha`, `beta` locals — an UnboundLocalError when they were
never bound — and sets tableA = q10 * (inf / tau), tableB = q10 * (1 / tau)
with tau = 1 / (alpha + beta). -/
def processGate (calcRate : RateDef → Tbl) (q10_scale : ℚ) (env : RateLocals)
    (ngate : NGate) : Except HHErr (RateLocals × GateTables) :=
  let step1 : RateLocals × GateTables :=
    match ngate.forward_rate, ngate.reverse_rate with
    | some fwd, some rev =>
      let alpha := calcRate fwd
      let beta := calcRate rev
      (⟨some alpha, some beta⟩,
       ⟨some (tblScale q10_scale alpha), some (tblScale q10_scale (tblAdd alpha beta))⟩)
    | _, _ => (env, ⟨none, none⟩)
  let env1 := step1.1
  let tabs2 : GateTables :=
    match ngate.time_course, ngate.steady_state with
    | some tc, some ss =>
      let tau := calcRate tc
      let inf := calcRate ss
      ⟨some (tblScale q10_scale (tblDiv inf tau)), some (tblScale q10_scale (tblInv tau))⟩
    | _, _ => step1.2
  match ngate.steady_state, ngate.time_course with
  | some ss, none =>
    match env1.alpha, env1.beta with
    | some alpha, some beta =>
      let tau := tblInv (tblAdd alpha beta)
      let inf := calcRate ss
      Except.ok (env1, ⟨some (tblScale q10_scale (tblDiv inf tau)),
                        some (tblScale q10_scale (tblInv tau))⟩)
    | _, _ => Except.error (HHErr.unboundLocal "alpha")
  | _, _ => Except.ok (env1, tabs2)

/-- The per-gate loop of `createHHChannel`, threading the function-local
`alpha`/`beta` bindings from one gate to the next. -/
def processGatesAux (calcRate : RateDef → Tbl) (q10s : NGate → ℚ) :
    RateLocals → List NGate → Except HHErr (List GateTables)
  | _, [] => Except.ok []
  | env, g :: rest =>
    match processGate calcRate (q10s g) env g with
    | Except.error e => Except.error e
    | Except.ok (env1, tabs) =>
      match processGatesAux calcRate q10s env1 rest with
      | Except.error e => Except.error e
      | Except.ok out => Except.ok (tabs :: out)

/-- Gate-table construction for a whole channel: the loop starts with both
locals unbound. -/
def processGates (calcRate : RateDef → Tbl) (q10s : NGate → ℚ) (gates : List NGate) :
    Except HHErr (List GateTables) :=
  processGatesAux calcRate q10s ⟨none, none⟩ gates

/-- A NeuroML ion-channel declaration as consumed by `isPassiveChan`:
declared type, whether the object has a `gates` attribute, and the two gate
lists. -/
structure NChannel where
  type : String
  hasGatesAttr : Bool
  gates : List NGate
  gate_hh_rates : List NGate
deriving DecidableEq

/-- reader.py `NML2Reader.isPassiveChan` (lines 422-427). -/
def isPassiveChan (chan : NChannel) : Bool :=
  if chan.type == "ionChannelPassive" then true
  else if chan.hasGatesAttr then chan.gate_hh_rates.length + chan.gates.length == 0
  else false

/-- The per-gate Q10 settings (`ngate.q10_settings`). -/
structure Q10Settings where
  type : String
  fixed_q10 : ℝ
  q10_factor : ℝ
  experimental_temp : ℝ

/-- The `q10_scale` computation of `NML2Reader.createHHChannel`
(lines 578-586): 1 when no settings are given; the fixed multiplier for
`q10Fixed`; `q10_factor ^ ((temperature - experimental_temp) / 10)` for
`q10ExpTemp`; any other type raises an error naming the type. -/
noncomputable def q10Scale (temperature : ℝ) (settings : Option Q10Settings) :
    Except String ℝ :=
  match settings with
  | none => Except.ok 1
  | some s =>
    if s.type == "q10Fixed" then Except.ok s.fixed_q10
    else if s.type == "q10ExpTemp" then
      Except.ok (s.q10_factor ^ ((temperature - s.experimental_temp) / 10))
    else Except.error ("Unknown Q10 scaling type " ++ s.type)

/-- A MOOSE channel object's settable fields: Gbar, Ek and the gate tables
the prototype carries. -/
structure ChanObj where
  Gbar : ℝ
  Ek : ℝ
  gateTableA : List ℚ
  gateTableB : List ℚ

/-- Channel-copy failures. -/
inductive ChanErr
  | missingPrototype (path : String)
deriving DecidableEq

/-- The path-addressed MOOSE object tree, restricted to channel objects.
A write shadows earlier bindings for the same path, so a read returns the
most recent write. -/
abbrev ChanStore := List (String × ChanObj)

/-- Read the object at a path. -/
def storeGet (s : ChanStore) (p : String) : Option ChanObj :=
  (s.find? (fun e => e.1 == p)).map (fun e => e.2)

/-- Write an object at a path. -/
def storeSet (s : ChanStore) (p : String) (o : ChanObj) : ChanStore :=
  (p, o) :: s

/-- Mutate one field of the object at a path (a no-op on a missing path). -/
def storeUpdate (s : ChanStore) (p : String) (f : ChanObj → ChanObj) : ChanStore :=
  match storeGet s p with
  | some o => storeSet s p (f o)
  | none => s

/-- reader.py `NML2Reader.copyChannel` (lines 484-513), acting on the object
store: resolve the prototype (raising when it is absent), deep-copy it to
`compPath ++ "/" ++ chdensId` (`moose.copy(proto_chan, comp, chdens.id)`),
then set the clone's Gbar to `sarea(comp) * condDensity` and its Ek to
`erev`.  The reader's `paths_to_chan_elements` bookkeeping rewrite
(lines 505-508) touches only that auxiliary map, not the object store, and
is not modelled here. -/
noncomputable def copyChannel (store : ChanStore) (protoPath : String)
    (comp : MComp) (compPath chdensId : String) (condDensity erev : ℝ) :
    Except ChanErr (ChanStore × String) :=
  match storeGet store protoPath with
  | none => Except.error (ChanErr.missingPrototype protoPath)
  | some proto =>
    let clonePath := compPath ++ "/" ++ chdensId
    let s1 := storeSet store clonePath proto
    let s2 := storeUpdate s1 clonePath (fun o => { o with Gbar := sarea comp * condDensity })
    let s3 := storeUpdate s2 clonePath (fun o => { o with Ek := erev })
    Except.ok (s3, clonePath)

/-- Iterated cloning of one channel prototype into a list of target
compartments, each with its own path and conductance density (the per-region
loop of `NML2Reader.importChannelsToCell`, lines 479-480). -/
noncomputable def copyChannelAll (store : ChanStore) (protoPath : String)
    (targets : List (MComp × String × ℝ)) (chdensId : String) (erev : ℝ) :
    Except ChanErr ChanStore :=
  targets.foldlM (fun s t =>
    (copyChannel s protoPath t.1 t.2.1 chdensId t.2.2 erev).map (fun r => r.1)) store

/-- The per-density branch of `NML2Reader.importChannelsToCell`
(lines 473-480), for one target compartment: a passive channel has
`setRm`/`setEk` applied to the compartment directly and creates no object;
otherwise the channel prototype is cloned into the compartment. -/
noncomputable def applyChannelDensityOnComp (chan : NChannel) (store : ChanStore)
    (protoPath : String) (comp : MComp) (compPath chdensId : String)
    (condDensity erev : ℝ) : Except ChanErr (MComp × ChanStore) :=
  if isPassiveChan chan then
    Except.ok (setEk (setRm comp condDensity) erev, store)
  else
    (copyChannel store protoPath comp compPath chdensId condDensity erev).map
      (fun r => (comp, r.1))

/-- A CaConc-like pool prototype's fields
(`NML2Reader.createDecayingPoolConcentrationModel`). -/
structure PoolObj where
  CaBasal : ℝ
  tau : ℝ
  thick : ℝ
  B : ℝ

/-- A `species` declaration from a cell's intracellular properties: its id,
its referenced concentration-model identifier (the reader reads this
reference both as `concentration_model` and as `concentrationModel`, and
reads `.id` of it in the `importSpecies` guard; all three are modelled as
the one optional identifier), and its target segment-group selector. -/
structure SpeciesDecl where
  id : String
  concentration_model : Option String
  segment_groups : Option String

/-- The pool-prototype tables a reader can search: its own `proto_pools`
and, as the fallback, the `proto_pools` of every included sub-reader. -/
structure ReaderPools where
  proto_pools : List (String × PoolObj)
  includes : List (List (String × PoolObj))

/-- Failures of the species import. -/
inductive SpeciesErr
  | missingPrototype (model : Option String) (speciesId : String)
  | nameErrorComp
deriving DecidableEq

/-- Dict lookup of an optional concentration-model reference in a prototype
table (`species.concentrationModel in pools`; `None` is in no table). -/
def poolLookup (pools : List (String × PoolObj)) (cm : Option String) :
    Option PoolObj :=
  match cm with
  | none => none
  | some m => (pools.find? (fun p => p.1 == m)).map (fun p => p.2)

/-- reader.py `NML2Reader.copySpecies` (lines 396-412): search the local
`proto_pools`, then every included sub-reader's `proto_pools`; raise the
missing-prototype error when no prototype is found.  When a prototype is
found, line 409 executes `moose.copy(proto_pool, comp, species.id)` — but
the name `comp` is bound nowhere in the function (its parameter is named
`compartment`) nor at module level, so the call raises a Python NameError;
the rescaling of `pool.B` by `shellVolume` on line 411 (see `rescaleB`) is
unreachable. -/
def copySpecies (rdr : ReaderPools) (species : SpeciesDecl)
    (compartment : MComp) : Except SpeciesErr PoolObj :=
  match poolLookup rdr.proto_pools species.concentration_model with
  | some _proto => Except.error SpeciesErr.nameErrorComp
  | none =>
    match rdr.includes.findSome?
        (fun inner => poolLookup inner species.concentration_model) with
    | some _proto => Except.error SpeciesErr.nameErrorComp
    | none =>
      Except.error (SpeciesErr.missingPrototype species.concentration_model species.id)

/-- reader.py `NML2Reader.importSpecies` (lines 385-394), for one species
declaration: when the declaration names a concentration model that is not a
key of the local `proto_pools`, the loop does `continue` — the species is
silently skipped, with no error and no clone; otherwise `copySpecies` is
called for every target compartment. -/
def importSpeciesOne (rdr : ReaderPools) (species : SpeciesDecl)
    (targetComps : List MComp) : Except SpeciesErr (List PoolObj) :=
  match species.concentration_model with
  | some cm =>
    if (rdr.proto_pools.find? (fun p => p.1 == cm)).isSome then
      targetComps.mapM (fun comp => copySpecies rdr species comp)
    else
      Except.ok []
  | none => targetComps.mapM (fun comp => copySpecies rdr species comp)

/-- Concrete point used by the group-expansion counterexample. -/
def cexPoint : NPoint := ⟨0, 0, 0, 1⟩

/-- Segment 0: a root segment with an explicit proximal point. -/
def cexSeg0 : NSegment := ⟨0, none, none, some cexPoint, cexPoint⟩

/-- Two groups: "g1" holds segment 0 directly; "g2" holds segment 0 directly
and also includes "g1", so segment 0 is reachable by two paths. -/
def cexGroups : List NSegmentGroup := [⟨"g1", [0], []⟩, ⟨"g2", [0], ["g1"]⟩]

/-- Concrete points for the proximal-resolution witness. -/
def wPtA : NPoint := ⟨1, 2, 3, 4⟩

/-- Second concrete point. -/
def wPtB : NPoint := ⟨5, 6, 7, 8⟩

/-- A root segment with an explicit proximal point. -/
def wSegRoot : NSegment := ⟨0, none, none, some wPtA, wPtB⟩

/-- A child of segment 0 with no explicit proximal point. -/
def wSegChild : NSegment := ⟨1, none, some 0, none, wPtA⟩

/-- A parentless segment with no explicit proximal point. -/
def wSegOrphan : NSegment := ⟨2, none, none, none, wPtA⟩

/-- A concrete pool prototype. -/
def wPool : PoolObj := ⟨1, 2, 3, 4⟩

/-- A concrete compartment (length 10, diameter 2). -/
def wCompA : MComp := ⟨10, 2, 0, 0, 0, 0, 0⟩

/-- A concrete zero-length (spherical) compartment of diameter 3. -/
def wCompB : MComp := ⟨0, 3, 0, 0, 0, 0, 0⟩

/-- A species declaration referencing the concentration model "ca". -/
def spCa : SpeciesDecl := ⟨"caPool", some "ca", none⟩

/-- A reader with no pool prototypes anywhere. -/
def rdrNoPools : ReaderPools := ⟨[], []⟩

/-- A reader whose local table holds a prototype for "ca". -/
def rdrWithCa : ReaderPools := ⟨[("ca", wPool)], []⟩

/-- A channel declared with the passive type. -/
def wPassiveChan : NChannel := ⟨"ionChannelPassive", false, [], []⟩

/-- A non-passively-typed channel with a `gates` attribute and no gates. -/
def wChanGateless : NChannel := ⟨"ionChannelHH", true, [], []⟩

/-- A non-passively-typed channel without a `gates` attribute. -/
def wChanOther : NChannel := ⟨"weird", false, [], []⟩

/-- A concrete channel prototype object. -/
def wProtoChan : ChanObj := ⟨1, 2, [3], [4]⟩

/-- Two clone targets with distinct compartments, paths and densities. -/
def wTargets : List (MComp × String × ℝ) := [(wCompA, "c1", 2), (wCompB, "c2", 3)]

/-- A store holding the channel prototype at path "p". -/
def wStore : ChanStore := [("p", wProtoChan)]

/-- Fixed-multiplier Q10 settings. -/
def wQ10Fixed : Q10Settings := ⟨"q10Fixed", 3, 2, 290⟩

/-- Exponential-temperature Q10 settings. -/
def wQ10Exp : Q10Settings := ⟨"q10ExpTemp", 3, 2, 290⟩

/-- Q10 settings with an unsupported scaling-type literal. -/
def wQ10Bad : Q10Settings := ⟨"q10Weird", 3, 2, 290⟩

/-- A concrete rate evaluator for the gate-table fixtures. -/
def cexCalc : RateDef → Tbl := fun n => [(n : ℚ) + 1]

/-- Q10 scale 1 for every gate in the fixtures. -/
def cexQ10s : NGate → ℚ := fun _ => 1

/-- A gate with both a forward and a reverse rate. -/
def cexGate1 : NGate := ⟨1, some 10, some 20, none, none⟩

/-- A gate with only a steady-state function: no time course and no
forward/reverse rates. -/
def cexGate2 : NGate := ⟨2, none, none, none, some 30⟩

theorem dedupAux_id_not_mem (l : List NSegment) :
    ∀ (seen : List ℕ), ∀ s ∈ dedupAux l seen, s.id ∉ seen := by
  induction l with
  | nil => intro seen s hs; simp [dedupAux] at hs
  | cons a rest ih =>
    intro seen s hs
    by_cases h : a.id ∈ seen
    · rw [dedupAux, if_pos h] at hs
      exact ih seen s hs
    · rw [dedupAux, if_neg h] at hs
      rcases List.mem_cons.mp hs with heq | hmem
      · subst heq; exact h
      · intro hc
        exact ih (a.id :: seen) s hmem (List.mem_cons_of_mem _ hc)

theorem dedupAux_nodup (l : List NSegment) :
    ∀ (seen : List ℕ), ((dedupAux l seen).map NSegment.id).Nodup := by
  induction l with
  | nil => intro seen; simp [dedupAux]
  | cons a rest ih =>
    intro seen
    by_cases h : a.id ∈ seen
    · rw [dedupAux, if_pos h]; exact ih seen
    · rw [dedupAux, if_neg h]
      rw [List.map_cons, List.nodup_cons]
      refine ⟨?_, ih (a.id :: seen)⟩
      intro hmem
      rcases List.mem_map.mp hmem with ⟨s, hs, hsid⟩
      exact dedupAux_id_not_mem rest (a.id :: seen) s hs (hsid ▸ List.mem_cons_self _ _)

theorem dedupAux_fix (l : List NSegment) :
    ∀ (seen : List ℕ), (l.map NSegment.id).Nodup → (∀ s ∈ l, s.id ∉ seen) →
    dedupAux l seen = l := by
  induction l with
  | nil => intro seen _ _; rfl
  | cons a rest ih =>
    intro seen hn hd
    have ha : a.id ∉ seen := hd a (List.mem_cons_self _ _)
    rw [dedupAux, if_neg ha]
    rw [List.map_cons, List.nodup_cons] at hn
    congr 1
    apply ih (a.id :: seen) hn.2
    intro s hs
    intro hc
    rcases List.mem_cons.mp hc with heq | hmem
    · exact hn.1 (heq ▸ List.mem_map.mpr ⟨s, hs, rfl⟩)
    · exact hd s (List.mem_cons_of_mem _ hs) hmem

theorem dedupSegs_nodup (l : List NSegment) : ((dedupSegs l).map NSegment.id).Nodup :=
  dedupAux_nodup l []

theorem dedupSegs_idem (l : List NSegment) : dedupSegs (dedupSegs l) = dedupSegs l :=
  dedupAux_fix (dedupSegs l) [] (dedupSegs_nodup l) (by intro s _ hc; simp at hc)

/-- Claim C1, counterexample: the mapping from group identifier to segment
list built by `createMorphology` (here `buildSgToSegments`) does NOT contain
each segment exactly once per group.  With one segment (id 0), group "g1"
holding it directly, and group "g2" holding it directly and also including
"g1", the resolved entry for "g2" lists segment 0 twice. -/
theorem group_expansion_duplicate_counterexample :
    (buildSgToSegments [cexSeg0] cexGroups).map
      (fun m => (sgGet m "g2").map (List.map NSegment.id)) =
    Except.ok (some [0, 0]) := by
  rfl

/-- Claim C1 (amended): the group-to-segments mapping itself may repeat a
segment reachable both directly and via an included group; deduplication by
segment id, preserving first-seen order, happens in the consumer-facing
helper `getSegments`, whose successful output never repeats a segment id
and is a fixed point of the deduplication, so expanding a group a second
time yields the identical list. -/
theorem getSegments_dedup_idempotent (allSegments : List NSegment) (m : SgMap)
    (sg : Option String) (l : List NSegment)
    (h : getSegments allSegments m sg = Except.ok l) :
    (l.map NSegment.id).Nodup ∧ dedupSegs l = l := by
  have hex : ∃ s, l = dedupSegs s := by
    cases sg with
    | none =>
      rw [getSegments] at h
      exact ⟨allSegments, (Except.ok.inj h).symm⟩
    | some g =>
      rw [getSegments] at h
      by_cases hg : (g == "all") = true
      · rw [if_pos hg] at h
        exact ⟨_, (Except.ok.inj h).symm⟩
      · rw [if_neg hg] at h
        cases hsg : sgGet m g with
        | some l0 =>
          rw [hsg] at h
          exact ⟨l0, (Except.ok.inj h).symm⟩
        | none => rw [hsg] at h; cases h
  obtain ⟨s, rfl⟩ := hex
  exact ⟨dedupSegs_nodup s, dedupSegs_idem s⟩

/-- Claim C1, witness: expanding group "g1" through `getSegments` on a
concrete mapping gives a deduplicated, dedup-stable list. -/
theorem getSegments_dedup_idempotent_witness :
    (([cexSeg0] : List NSegment).map NSegment.id).Nodup
    ∧ dedupSegs [cexSeg0] = [cexSeg0] :=
  getSegments_dedup_idempotent [cexSeg0] [("g1", [cexSeg0])] (some "g1") [cexSeg0] (by rfl)

/-- Claim C2, code bug: with no prototype for "ca" in the local table nor in
any included reader, `importSpecies` does not raise the missing-prototype
error — its guard (`continue`, lines 388-390) silently skips the species, so
the import succeeds having cloned nothing.  And when a prototype IS found,
`copySpecies` cannot clone it: line 409 reads the undefined name `comp`
(the parameter is `compartment`), raising a NameError before the copy. -/
theorem species_import_code_bug :
    importSpeciesOne rdrNoPools spCa [wCompA] = Except.ok []
    ∧ copySpecies rdrWithCa spCa wCompA = Except.error SpeciesErr.nameErrorComp := by
  constructor
  · rfl
  · rfl

/-- Claim C3, counterexample: the claim's precondition "thickness <
diameter/2 implies the divisor is positive" fails for a zero-length
(spherical) compartment: with length 0, diameter 2, thickness 0 the
thickness is below half the diameter yet the shell-volume divisor is 0. -/
theorem pool_shell_volume_counterexample :
    (0 : ℝ) < 2 / 2 ∧ ¬ 0 < shellVolume 0 2 0 := by
  constructor
  · norm_num
  · simp [shellVolume]

/-- Claim C3 (amended): cloning a pool prototype rescales B by
1/(pi * length * (0.5*diameter + thickness) * (0.5*diameter - thickness));
for a compartment of positive length and diameter and nonnegative
thickness the divisor is positive exactly when thickness < diameter/2,
and for thickness >= diameter/2 the divisor is nonpositive and the
division is still applied — the code has no check, so the clone does not
fail on a non-positive shell volume. -/
theorem pool_clone_rescale_amended (B length diameter thickness : ℝ)
    (hl : 0 < length) (hd : 0 < diameter) (ht : 0 ≤ thickness) :
    rescaleB B length diameter thickness =
      B / (Real.pi * length * (0.5 * diameter + thickness) * (0.5 * diameter - thickness))
    ∧ (thickness < diameter / 2 → 0 < shellVolume length diameter thickness)
    ∧ (diameter / 2 ≤ thickness → shellVolume length diameter thickness ≤ 0) := by
  refine ⟨rfl, ?_, ?_⟩
  · intro h
    have h1 : 0 < 0.5 * diameter + thickness := by nlinarith
    have h2 : 0 < 0.5 * diameter - thickness := by nlinarith
    have hpi := Real.pi_pos
    unfold shellVolume
    exact mul_pos (mul_pos (mul_pos hpi hl) h1) h2
  · intro h
    have h1 : 0 ≤ Real.pi * length * (0.5 * diameter + thickness) :=
      mul_nonneg (mul_nonneg Real.pi_pos.le hl.le) (by linarith)
    have h2 : 0.5 * diameter - thickness ≤ 0 := by nlinarith
    unfold shellVolume
    exact mul_nonpos_of_nonneg_of_nonpos h1 h2

/-- Claim C3, witness: the amended statement at B 1, length 1, diameter 2,
thickness 0. -/
theorem pool_clone_rescale_amended_witness :
    rescaleB 1 1 2 0 = 1 / (Real.pi * 1 * (0.5 * 2 + 0) * (0.5 * 2 - 0))
    ∧ ((0 : ℝ) < 2 / 2 → 0 < shellVolume 1 2 0)
    ∧ ((2 : ℝ) / 2 ≤ 0 → shellVolume 1 2 0 ≤ 0) :=
  pool_clone_rescale_amended 1 1 2 0 (by norm_num) (by norm_num) (by norm_num)

/-- Claim C4: in the geometry builder, a segment with no explicit proximal
point takes its resolved parent's distal point as proximal; a segment with
no explicit proximal point and no parent reference raises the
missing-geometry error identifying the segment. -/
theorem proximal_point_resolution (segments : List NSegment) (seg p : NSegment)
    (hprox : seg.proximal = none) :
    (resolveParent segments seg = Except.ok (some p) →
      resolveProximal segments seg = Except.ok p.distal)
    ∧ (seg.parent = none →
      resolveProximal segments seg = Except.error (MorphErr.missingGeometry seg.id)) := by
  constructor
  · intro hp
    rw [resolveProximal, hp, hprox]
  · intro hp
    rw [resolveProximal, resolveParent, hp, hprox]

/-- Claim C4, witness: a child with no proximal point inherits the root's
distal point; an orphan with no proximal point fails. -/
theorem proximal_point_resolution_witness :
    resolveProximal [wSegRoot, wSegChild] wSegChild = Except.ok wSegRoot.distal
    ∧ resolveProximal [wSegRoot] wSegOrphan = Except.error (MorphErr.missingGeometry 2) :=
  ⟨(proximal_point_resolution [wSegRoot, wSegChild] wSegChild wSegRoot rfl).1 rfl,
   (proximal_point_resolution [wSegRoot] wSegOrphan wSegRoot rfl).2 rfl⟩

/-- Claim C5: for every two-point segment, the compartment length computed
by the geometry builder equals the Euclidean distance between the
unit-scaled proximal and distal points, and the compartment diameter equals
the arithmetic mean of the two unit-scaled endpoint diameters. -/
theorem segment_geometry_formulas (lunit : ℝ) (p0 p1 : NPoint) :
    compLength lunit p0 p1 = euclideanDist (scalePoint lunit p0) (scalePoint lunit p1)
    ∧ compDiameter lunit p0 p1 =
      ((scalePoint lunit p0).diameter + (scalePoint lunit p1).diameter) / 2 := by
  constructor
  · unfold compLength euclideanDist scalePoint
    congr 1
  · unfold compDiameter scalePoint
    ring

theorem storeGet_set_self (s : ChanStore) (p : String) (o : ChanObj) :
    storeGet (storeSet s p o) p = some o := by
  unfold storeGet storeSet
  rw [List.find?_cons_of_pos _ (by simp)]
  rfl

theorem storeGet_set_ne (s : ChanStore) (p q : String) (o : ChanObj) (h : q ≠ p) :
    storeGet (storeSet s p o) q = storeGet s q := by
  unfold storeGet storeSet
  rw [List.find?_cons_of_neg _ (by simp [Ne.symm h])]

theorem storeUpdate_get_self (s : ChanStore) (p : String) (f : ChanObj → ChanObj)
    (o : ChanObj) (h : storeGet s p = some o) :
    storeGet (storeUpdate s p f) p = some (f o) := by
  unfold storeUpdate
  rw [h]
  exact storeGet_set_self s p (f o)

theorem storeUpdate_get_ne (s : ChanStore) (p q : String) (f : ChanObj → ChanObj)
    (h : q ≠ p) : storeGet (storeUpdate s p f) q = storeGet s q := by
  unfold storeUpdate
  cases hg : storeGet s p with
  | none => rfl
  | some o => exact storeGet_set_ne s p q (f o) h

theorem copyChannel_ok (store : ChanStore) (protoPath : String) (comp : MComp)
    (compPath chdensId : String) (condDensity erev : ℝ) (proto : ChanObj)
    (hp : storeGet store protoPath = some proto) :
    ∃ s, copyChannel store protoPath comp compPath chdensId condDensity erev =
        Except.ok (s, compPath ++ "/" ++ chdensId)
      ∧ storeGet s (compPath ++ "/" ++ chdensId) =
          some { proto with Gbar := sarea comp * condDensity, Ek := erev }
      ∧ ∀ q, q ≠ compPath ++ "/" ++ chdensId → storeGet s q = storeGet store q := by
  unfold copyChannel
  rw [hp]
  refine ⟨_, rfl, ?_, ?_⟩
  · have h1 : storeGet (storeSet store (compPath ++ "/" ++ chdensId) proto)
        (compPath ++ "/" ++ chdensId) = some proto :=
      storeGet_set_self store (compPath ++ "/" ++ chdensId) proto
    have h2 := storeUpdate_get_self _ (compPath ++ "/" ++ chdensId)
      (fun o => { o with Gbar := sarea comp * condDensity }) proto h1
    have h3 := storeUpdate_get_self _ (compPath ++ "/" ++ chdensId)
      (fun o => { o with Ek := erev }) _ h2
    exact h3
  · intro q hq
    rw [storeUpdate_get_ne _ _ _ _ hq, storeUpdate_get_ne _ _ _ _ hq,
      storeGet_set_ne _ _ _ _ hq]

theorem copyChannelAll_ok (protoPath chdensId : String) (erev : ℝ) (proto : ChanObj)
    (targets : List (MComp × String × ℝ)) (store : ChanStore)
    (hp : storeGet store protoPath = some proto)
    (hnodup : (targets.map (fun t => t.2.1 ++ "/" ++ chdensId)).Nodup)
    (hnp : ∀ t ∈ targets, ¬ (t.2.1 ++ "/" ++ chdensId = protoPath)) :
    ∃ s, copyChannelAll store protoPath targets chdensId erev = Except.ok s
      ∧ (∀ q, (∀ t ∈ targets, ¬ (q = t.2.1 ++ "/" ++ chdensId)) →
          storeGet s q = storeGet store q)
      ∧ ∀ t ∈ targets, storeGet s (t.2.1 ++ "/" ++ chdensId) =
          some { proto with Gbar := sarea t.1 * t.2.2, Ek := erev } := by
  induction targets generalizing store with
  | nil => exact ⟨store, rfl, fun q _ => rfl, by simp⟩
  | cons t ts ih =>
    obtain ⟨s1, hrun1, hclone1, hframe1⟩ :=
      copyChannel_ok store protoPath t.1 t.2.1 chdensId t.2.2 erev proto hp
    have hpne : protoPath ≠ t.2.1 ++ "/" ++ chdensId :=
      fun he => hnp t (List.mem_cons_self _ _) he.symm
    have hp1 : storeGet s1 protoPath = some proto := by
      rw [hframe1 protoPath hpne]; exact hp
    rw [List.map_cons, List.nodup_cons] at hnodup
    obtain ⟨s, hrun, hframe, hclones⟩ := ih s1 hp1 hnodup.2
      (fun t' ht' => hnp t' (List.mem_cons_of_mem _ ht'))
    have hstep : copyChannelAll store protoPath (t :: ts) chdensId erev
        = copyChannelAll s1 protoPath ts chdensId erev := by
      unfold copyChannelAll
      rw [List.foldlM_cons, hrun1]
      rfl
    refine ⟨s, by rw [hstep]; exact hrun, ?_, ?_⟩
    · intro q hq
      rw [hframe q (fun t' ht' => hq t' (List.mem_cons_of_mem _ ht'))]
      exact hframe1 q (hq t (List.mem_cons_self _ _))
    · intro t' ht'
      rcases List.mem_cons.mp ht' with heq | hmem
      · subst heq
        rw [hframe (t'.2.1 ++ "/" ++ chdensId) ?_]
        · exact hclone1
        · intro t'' ht'' he
          exact hnodup.1 (he ▸ List.mem_map.mpr ⟨t'', ht'', rfl⟩)
      · exact hclones t' hmem

/-- Claim C6: for a passive channel density, the target compartment gets
membrane resistance Rm = 1/(density * surface area) — with surface area
length*diameter*pi for positive length and diameter*diameter*pi for
zero-length segments — and Em set to the declared reversal potential
directly, and the object store is unchanged: no channel clone is created. -/
theorem passive_channel_direct_Rm_Em (chan : NChannel) (store : ChanStore)
    (protoPath : String) (comp : MComp) (compPath chdensId : String)
    (condDensity erev : ℝ) (hpass : isPassiveChan chan = true) :
    applyChannelDensityOnComp chan store protoPath comp compPath chdensId condDensity erev
      = Except.ok ({ comp with Rm := 1 / (condDensity * sarea comp), Em := erev }, store)
    ∧ sarea comp = (if comp.length > 0 then comp.length * comp.diameter * Real.pi
        else comp.diameter * comp.diameter * Real.pi) := by
  refine ⟨?_, rfl⟩
  rw [applyChannelDensityOnComp, if_pos hpass]
  rfl

/-- Claim C6, witness: a channel of type `ionChannelPassive` applied at
density 5 and reversal -7 to a concrete compartment. -/
theorem passive_channel_direct_Rm_Em_witness :
    applyChannelDensityOnComp wPassiveChan [] "p" wCompA "c" "d" 5 (-7)
      = Except.ok ({ wCompA with Rm := 1 / (5 * sarea wCompA), Em := -7 }, [])
    ∧ sarea wCompA = (if wCompA.length > 0 then wCompA.length * wCompA.diameter * Real.pi
        else wCompA.diameter * wCompA.diameter * Real.pi) :=
  passive_channel_direct_Rm_Em wPassiveChan [] "p" wCompA "c" "d" 5 (-7) rfl

/-- Claim C7: cloning a non-passive channel prototype into N compartments
with per-compartment densities yields, per target, an independent clone at
that compartment's path whose Gbar is that compartment's surface area times
its density and whose Ek is the declared reversal potential, while the
prototype object — all of its fields, gate tables included — is left
exactly as it was by every clone operation. -/
theorem channel_clone_independence (protoPath chdensId : String) (erev : ℝ)
    (proto : ChanObj) (targets : List (MComp × String × ℝ)) (store s : ChanStore)
    (hp : storeGet store protoPath = some proto)
    (hnodup : (targets.map (fun t => t.2.1 ++ "/" ++ chdensId)).Nodup)
    (hnp : ∀ t ∈ targets, ¬ (t.2.1 ++ "/" ++ chdensId = protoPath))
    (hrun : copyChannelAll store protoPath targets chdensId erev = Except.ok s) :
    storeGet s protoPath = some proto
    ∧ ∀ t ∈ targets, storeGet s (t.2.1 ++ "/" ++ chdensId) =
        some { proto with Gbar := sarea t.1 * t.2.2, Ek := erev } := by
  obtain ⟨s0, hrun0, hframe, hclones⟩ :=
    copyChannelAll_ok protoPath chdensId erev proto targets store hp hnodup hnp
  have hs : s0 = s := by
    rw [hrun0] at hrun
    exact Except.ok.inj hrun
  subst hs
  refine ⟨?_, hclones⟩
  rw [hframe protoPath (fun t ht he => hnp t ht he.symm)]
  exact hp

/-- Claim C7, witness: the prototype at path "p" cloned into two concrete
compartments with densities 2 and 3 and reversal 5. -/
theorem channel_clone_independence_witness :
    ∃ s, copyChannelAll wStore "p" wTargets "d" 5 = Except.ok s
      ∧ (storeGet s "p" = some wProtoChan
        ∧ ∀ t ∈ wTargets, storeGet s (t.2.1 ++ "/" ++ "d") =
            some { wProtoChan with Gbar := sarea t.1 * t.2.2, Ek := 5 }) := by
  obtain ⟨s, hrun, _, _⟩ := copyChannelAll_ok "p" "d" 5 wProtoChan wTargets wStore
    (by rfl) (by decide) (by decide)
  exact ⟨s, hrun,
    channel_clone_independence "p" "d" 5 wProtoChan wTargets wStore s
      (by rfl) (by decide) (by decide) hrun⟩

/-- Claim C8: the Q10 scale factor is 1 with no settings; the fixed
multiplier for scaling type q10Fixed; q10_factor raised to
(temperature - experimental_temp)/10 for q10ExpTemp; and any other
scaling-type literal is an error whose message names the offending type. -/
theorem q10_scale_cases (temperature : ℝ) (s : Q10Settings) :
    q10Scale temperature none = Except.ok 1
    ∧ (s.type = "q10Fixed" → q10Scale temperature (some s) = Except.ok s.fixed_q10)
    ∧ (s.type = "q10ExpTemp" → q10Scale temperature (some s) =
        Except.ok (s.q10_factor ^ ((temperature - s.experimental_temp) / 10)))
    ∧ (s.type ≠ "q10Fixed" → s.type ≠ "q10ExpTemp" →
        q10Scale temperature (some s) =
          Except.error ("Unknown Q10 scaling type " ++ s.type)) := by
  refine ⟨rfl, ?_, ?_, ?_⟩
  · intro h
    simp [q10Scale, h]
  · intro h
    simp [q10Scale, h]
  · intro h1 h2
    simp [q10Scale, h1, h2]

/-- Claim C8, witness: each of the four cases at a concrete temperature and
concrete settings. -/
theorem q10_scale_cases_witness :
    q10Scale 300 none = Except.ok 1
    ∧ q10Scale 300 (some wQ10Fixed) = Except.ok wQ10Fixed.fixed_q10
    ∧ q10Scale 300 (some wQ10Exp) =
        Except.ok (wQ10Exp.q10_factor ^ ((300 - wQ10Exp.experimental_temp) / 10))
    ∧ q10Scale 300 (some wQ10Bad) =
        Except.error ("Unknown Q10 scaling type " ++ wQ10Bad.type) :=
  ⟨(q10_scale_cases 300 wQ10Fixed).1,
   (q10_scale_cases 300 wQ10Fixed).2.1 rfl,
   (q10_scale_cases 300 wQ10Exp).2.2.1 rfl,
   (q10_scale_cases 300 wQ10Bad).2.2.2 (by decide) (by decide)⟩

/-- Claim C9, counterexample: the claim says a gate with steady_state set,
time_course absent and a forward or reverse rate absent makes evaluation
read an unbound value and fail.  But `alpha`/`beta` are locals of the whole
channel build and persist across the per-gate loop: after a first gate with
both rates, a second steady-state-only gate silently reuses the first
gate's values and the build succeeds. -/
theorem hh_stale_rate_locals_counterexample :
    cexGate2.steady_state = some 30 ∧ cexGate2.time_course = none
    ∧ cexGate2.forward_rate = none
    ∧ (processGates cexCalc cexQ10s [cexGate1, cexGate2]).isOk = true := by
  refine ⟨rfl, rfl, rfl, rfl⟩

/-- Claim C9 (amended): the steady-state-only branch computes
tau = 1/(alpha+beta) from the alpha/beta locals.  When the gate itself has
both rates, those are its own freshly bound values; when a forward or
reverse rate is absent, the branch fails with an unbound-local read only if
no earlier gate of the same channel bound alpha and beta — otherwise it
silently reuses the stale values from the earlier gate. -/
theorem hh_steady_state_branch_amended (calcRate : RateDef → Tbl) (q10 : ℚ)
    (env : RateLocals) (ngate : NGate) (ss : RateDef)
    (hss : ngate.steady_state = some ss) (htc : ngate.time_course = none) :
    (∀ fwd rev, ngate.forward_rate = some fwd → ngate.reverse_rate = some rev →
      processGate calcRate q10 env ngate = Except.ok
        (⟨some (calcRate fwd), some (calcRate rev)⟩,
         ⟨some (tblScale q10 (tblDiv (calcRate ss)
             (tblInv (tblAdd (calcRate fwd) (calcRate rev))))),
          some (tblScale q10 (tblInv (tblInv (tblAdd (calcRate fwd) (calcRate rev)))))⟩))
    ∧ ((ngate.forward_rate = none ∨ ngate.reverse_rate = none) →
        ((env.alpha = none ∨ env.beta = none →
          processGate calcRate q10 env ngate = Except.error (HHErr.unboundLocal "alpha"))
        ∧ (∀ alphaT betaT, env.alpha = some alphaT → env.beta = some betaT →
            processGate calcRate q10 env ngate = Except.ok
              (env, ⟨some (tblScale q10 (tblDiv (calcRate ss) (tblInv (tblAdd alphaT betaT)))),
                     some (tblScale q10 (tblInv (tblInv (tblAdd alphaT betaT))))⟩)))) := by
  constructor
  · intro fwd rev hf hr
    simp [processGate, hss, htc, hf, hr]
  · intro hor
    have hstep : (match ngate.forward_rate, ngate.reverse_rate with
        | some fwd, some rev =>
          ((⟨some (calcRate fwd), some (calcRate rev)⟩ : RateLocals),
           (⟨some (tblScale q10 (calcRate fwd)),
             some (tblScale q10 (tblAdd (calcRate fwd) (calcRate rev)))⟩ : GateTables))
        | _, _ => (env, (⟨none, none⟩ : GateTables))) = (env, ⟨none, none⟩) := by
      rcases hor with hf | hr
      · rw [hf]
      · rw [hr]
        cases ngate.forward_rate <;> rfl
    constructor
    · intro hnone
      rcases hnone with ha | hb
      · simp [processGate, hss, htc, hstep, ha]
      · cases hea : env.alpha with
        | none => simp [processGate, hss, htc, hstep, hea]
        | some alphaT => simp [processGate, hss, htc, hstep, hea, hb]
    · intro alphaT betaT ha hb
      simp [processGate, hss, htc, hstep, ha, hb]

/-- Claim C9, witness: the unbound-local failure on a single steady-state-
only gate with no prior bindings. -/
theorem hh_steady_state_branch_amended_witness :
    processGate cexCalc 1 ⟨none, none⟩ cexGate2 = Except.error (HHErr.unboundLocal "alpha") :=
  ((hh_steady_state_branch_amended cexCalc 1 ⟨none, none⟩ cexGate2 30 rfl rfl).2
    (Or.inl rfl)).1 (Or.inl rfl)

/-- Claim C10: the passive-channel predicate is true for declared type
exactly `ionChannelPassive`; true for any channel having a `gates`
attribute with both its gates list and its gate_hh_rates list empty,
whatever its declared type; and false for a channel without a `gates`
attribute whose type is not the passive one. -/
theorem isPassiveChan_cases (chan : NChannel) :
    (chan.type = "ionChannelPassive" → isPassiveChan chan = true)
    ∧ (chan.hasGatesAttr = true → chan.gates = [] → chan.gate_hh_rates = [] →
        isPassiveChan chan = true)
    ∧ (chan.hasGatesAttr = false → chan.type ≠ "ionChannelPassive" →
        isPassiveChan chan = false) := by
  refine ⟨?_, ?_, ?_⟩
  · intro h
    simp [isPassiveChan, h]
  · intro h1 h2 h3
    rw [isPassiveChan]
    by_cases ht : chan.type == "ionChannelPassive"
    · rw [if_pos ht]
    · rw [if_neg ht, if_pos h1, h2, h3]
      rfl
  · intro h1 h2
    simp [isPassiveChan, h1, h2]

/-- Claim C10, witness: the three cases on concrete channels. -/
theorem isPassiveChan_cases_witness :
    isPassiveChan wPassiveChan = true ∧ isPassiveChan wChanGateless = true
    ∧ isPassiveChan wChanOther = false :=
  ⟨(isPassiveChan_cases wPassiveChan).1 rfl,
   (isPassiveChan_cases wChanGateless).2.1 rfl rfl rfl,
   (isPassiveChan_cases wChanOther).2.2 rfl (by decide)⟩
